import Mathlib

/-!
# far-mon: shallow embedding and verification of the core

This file embeds the core components of the far-mon farm-telemetry firmware
(`src/edge/heltec`) in Lean 4 and proves / refutes the frozen claims about it.

Embedded components and their sources:

* `TaskScheduler` (`lib/scheduler.h`) — cooperative task table.
* `LoRaComm` (`lib/lora_comm.h`) — the link-layer datagram engine:
  outbox, framing, ACK/retry, peer table, connection state machine.
* `LoRaBatchTransmitter` and `YFS201WaterFlowSensor`
  (`remote/sensor_implementations.hpp`).
* `RemoteDeviceManager` (`relay/remote_device_manager.h`).

Modelling conventions:

* C++ `uint32_t` millisecond clocks are represented as `Nat`.  Where the
  source computes a wrapping unsigned difference we use `u32sub`, where it
  casts the difference to `int32_t` we use `s32sub`, and where it adds a
  delay to a timestamp we use `u32add`; plain `uint32_t` comparisons such as
  `nowMs >= nextReconnectAttemptMs` become plain `Nat` comparisons (faithful
  whenever the represented values are below `2^32`, which concrete theorems
  either pick or hypothesise).
* Calls to `millis()` inside a handler are modelled by passing the current
  time `now` explicitly; the firmware is single-threaded, so within one
  handler invocation all `millis()` reads coincide with the tick time.
* Radio driver calls (`Radio.Send`, `Radio.Sleep`, `Radio.Rx`, ...) have no
  observable effect on the engine state other than the `radioState` /
  `lastRadioActivityMs` bookkeeping that the source performs around them,
  which is modelled directly.  `delay(...)` pacing calls are not modelled.
* C callback invocations (`onDataCb`, `onAckCb`) are modelled as emitted
  `LoRaEvent` values, assuming a callback has been registered.
* Logging (`Logger::printf`, `LOG_EVERY_MS` bodies that only print) is not
  modelled, except that the `LOG_EVERY_MS(5000, ...)` block at the end of
  `LoRaComm::tick` also resets the stats counters: that state effect is
  modelled, including the function-local `static` timestamp it uses.
* 16-bit stats counters (`statsTx`, `statsDropped`, ...) are modelled as
  unbounded `Nat`; they are logging-only and never feed back into control
  flow.
* `float` sensor/volume values are modelled as `Option ℚ` (`none` is NaN);
  Arduino `String(float, 2)` and the C `(int)` cast are modelled by exact
  rational rounding / truncation.
-/

/-! ## Wrap-safe 32-bit arithmetic helpers -/

/-- Reduction of a `Nat` to its `uint32_t` value. -/
def u32 (x : Nat) : Nat := x % 4294967296

/-- The wrapping `uint32_t` subtraction `a - b`. -/
def u32sub (a b : Nat) : Nat := (a % 4294967296 + 4294967296 - b % 4294967296) % 4294967296

/-- The wrapping `uint32_t` addition `a + b`. -/
def u32add (a b : Nat) : Nat := (a + b) % 4294967296

/-- Reinterpretation of a `uint32_t` value as `int32_t` (the C cast). -/
def s32 (x : Nat) : Int :=
  if x % 4294967296 < 2147483648 then (x % 4294967296 : Int)
  else (x % 4294967296 : Int) - 4294967296

/-- The C idiom `(int32_t)(a - b)` on `uint32_t` operands. -/
def s32sub (a b : Nat) : Int := s32 (u32sub a b)

/-! ## Cooperative task scheduler (`lib/scheduler.h`, `TaskScheduler`) -/

/-- One entry of the fixed-capacity task table (`TaskScheduler::Task`).
The C callback function pointer is identified by the task `name`; `tick`
reports the names of the callbacks it ran. -/
structure SchedTask where
  name : String
  intervalMs : Nat
  nextRunMs : Nat
  enabled : Bool
  deriving Repr, DecidableEq

/-- `TaskScheduler::registerTask`: append (if capacity remains) with
`nextRunMs = millis() + intervalMs` and `enabled = true`. -/
def registerTask (maxTasks : Nat) (now : Nat) (ts : List SchedTask)
    (name : String) (intervalMs : Nat) : Bool × List SchedTask :=
  if ts.length ≥ maxTasks then (false, ts)
  else (true, ts ++ [⟨name, intervalMs, u32add now intervalMs, true⟩])

/-- `TaskScheduler::setEnabled`: flip the `enabled` flag of the first entry
whose name matches; nothing else of the entry is touched. -/
def setEnabled (ts : List SchedTask) (name : String) (en : Bool) : List SchedTask :=
  match ts with
  | [] => []
  | t :: rest =>
    if t.name = name then { t with enabled := en } :: rest
    else t :: setEnabled rest name en

/-- `TaskScheduler::tick`: run every enabled task whose deadline has passed
(wrap-safe signed comparison), rescheduling it at `nextRun + interval`, or at
`now + interval` when more than one interval late.  Returns the new table and
the names of the tasks that ran. -/
def schedTick (now : Nat) (ts : List SchedTask) : List SchedTask × List String :=
  match ts with
  | [] => ([], [])
  | t :: rest =>
    if t.enabled = true ∧ 0 ≤ s32sub now t.nextRunMs then
      let scheduled := u32add t.nextRunMs t.intervalMs
      let nextRun := if 0 ≤ s32sub now scheduled then u32add now t.intervalMs else scheduled
      let (rest2, ran) := schedTick now rest
      ({ t with nextRunMs := nextRun } :: rest2, t.name :: ran)
    else
      let (rest2, ran) := schedTick now rest
      (t :: rest2, ran)

/-! ## Link-layer datagram engine (`lib/lora_comm.h`, `LoRaComm`) -/

/-- `LORA_COMM_MAX_PAYLOAD`: maximum on-air frame length in bytes. -/
def LORA_COMM_MAX_PAYLOAD : Nat := 64

/-- `LORA_COMM_MAX_OUTBOX`: outbox capacity. -/
def LORA_COMM_MAX_OUTBOX : Nat := 8

/-- `LORA_COMM_MAX_PEERS`: peer-table capacity. -/
def LORA_COMM_MAX_PEERS : Nat := 16

/-- `LORA_COMM_ACK_TIMEOUT_MS`: per-attempt ACK wait. -/
def LORA_COMM_ACK_TIMEOUT_MS : Nat := 1500

/-- `LORA_COMM_MAX_RETRIES`: attempts after which a REQUIRE_ACK entry drops. -/
def LORA_COMM_MAX_RETRIES : Nat := 4

/-- `LORA_COMM_TX_GUARD_MS`: TX watchdog threshold. -/
def LORA_COMM_TX_GUARD_MS : Nat := 8000

/-- `LORA_COMM_TX_STUCK_REINIT_COUNT`: stuck-TX events before radio reinit. -/
def LORA_COMM_TX_STUCK_REINIT_COUNT : Nat := 3

/-- `LORA_COMM_RECONNECT_ATTEMPT_MS`: slave re-registration cadence. -/
def LORA_COMM_RECONNECT_ATTEMPT_MS : Nat := 5000

/-- `LoRaComm::kProtocolVersion`. -/
def kProtocolVersion : Nat := 1

/-- `LoRaComm::kHeaderSize`: 7-byte frame header. -/
def kHeaderSize : Nat := 7

/-- `LoRaComm::kFlagRequireAck`: bit 0 of the flags byte. -/
def kFlagRequireAck : Nat := 1

/-- `LoRaComm::Mode`. -/
inductive LoRaMode where
  | master
  | slave
  deriving Repr, DecidableEq

/-- `LoRaComm::FrameType` (`Data = 0x01`, `Ack = 0x02`). -/
inductive FrameType where
  | data
  | ack
  deriving Repr, DecidableEq

/-- The wire byte of a `FrameType`. -/
def FrameType.toByte : FrameType → Nat
  | .data => 1
  | .ack => 2

/-- `LoRaComm::ConnectionState`. -/
inductive ConnState where
  | disconnected
  | connecting
  | connected
  deriving Repr, DecidableEq

/-- `LoRaComm::State`: the internal radio-state mutex. -/
inductive RadioState where
  | idle
  | rx
  | tx
  deriving Repr, DecidableEq

/-- `LoRaComm::OutMsg`: one outbox entry. -/
structure OutMsg where
  inUse : Bool
  ftype : FrameType
  destId : Nat
  msgId : Nat
  requireAck : Bool
  attempts : Nat
  nextAttemptMs : Nat
  length : Nat
  buf : List Nat
  deriving Repr, DecidableEq

instance : Inhabited OutMsg := ⟨⟨false, .data, 0, 0, false, 0, 0, 0, []⟩⟩

/-- `LoRaComm::PeerInfo`: one peer-table slot (`peerId = 0` means empty). -/
structure PeerInfo where
  peerId : Nat
  lastSeenMs : Nat
  connected : Bool
  deriving Repr, DecidableEq

/-- The whole mutable state of a `LoRaComm` instance.  The fixed C arrays
`outbox[LORA_COMM_MAX_OUTBOX]` (live prefix of `outboxCount` entries) and
`peers[LORA_COMM_MAX_PEERS]` (all 16 slots, empty slots have `peerId = 0`)
are represented as lists. -/
structure LoRaComm where
  mode : LoRaMode
  selfId : Nat
  lastAckOkMs : Nat
  lastRadioActivityMs : Nat
  lastNowMs : Nat
  lastRssiDbm : Int
  peerTimeoutMs : Nat
  rxPendingAck : Bool
  rxAckTargetId : Nat
  rxAckMessageId : Nat
  nextReconnectAttemptMs : Nat
  masterNodeId : Nat
  connectionState : ConnState
  connectionAttemptStartMs : Nat
  outbox : List OutMsg
  nextMessageId : Nat
  awaitingAckMsgId : Nat
  awaitingAckSrcId : Nat
  currentTxMsgId : Nat
  txStuckConsecutive : Nat
  peers : List PeerInfo
  radioState : RadioState
  stallActive : Bool
  stallDetectStartMs : Nat
  statsRxData : Nat
  statsRxAck : Nat
  statsTx : Nat
  statsTxTimeouts : Nat
  statsDropped : Nat
  statsOutboxMax : Nat
  statsLogLastMs : Nat
  deriving Repr, DecidableEq

/-- The `LoRaComm` constructor followed by `begin(m, id)`: every field as the
initializer list sets it (`lastRssiDbm = INT16_MIN`, `nextMessageId = 1`,
`masterNodeId = 1`, empty peer slots), with the radio parked in RX by
`enterRxMode`. -/
def LoRaComm.init (m : LoRaMode) (id : Nat) : LoRaComm where
  mode := m
  selfId := id
  lastAckOkMs := 0
  lastRadioActivityMs := 0
  lastNowMs := 0
  lastRssiDbm := -32768
  peerTimeoutMs := 15000
  rxPendingAck := false
  rxAckTargetId := 0
  rxAckMessageId := 0
  nextReconnectAttemptMs := 0
  masterNodeId := 1
  connectionState := .disconnected
  connectionAttemptStartMs := 0
  outbox := []
  nextMessageId := 1
  awaitingAckMsgId := 0
  awaitingAckSrcId := 0
  currentTxMsgId := 0
  txStuckConsecutive := 0
  peers := List.replicate LORA_COMM_MAX_PEERS ⟨0, 0, false⟩
  radioState := .rx
  stallActive := false
  stallDetectStartMs := 0
  statsRxData := 0
  statsRxAck := 0
  statsTx := 0
  statsTxTimeouts := 0
  statsDropped := 0
  statsOutboxMax := 0
  statsLogLastMs := 0

/-- Callback invocations the engine can emit.  `lora_comm.h` exposes exactly
two callbacks, `onDataCb` (`setOnDataReceived`) and `onAckCb`
(`setOnAckReceived`).  The `messageDropped` constructor exists so that the
spec's `on_message_dropped(msg_id, attempts)` notification can be stated:
the engine in `lora_comm.h` has no such callback and no code path below
ever emits this constructor. -/
inductive LoRaEvent where
  | dataReceived (srcId : Nat) (payload : List Nat) (length : Nat)
  | ackReceived (srcId : Nat) (msgId : Nat)
  | messageDropped (msgId : Nat) (attempts : Nat)
  deriving Repr, DecidableEq

/-- `LoRaComm::maxAppPayload`. -/
def maxAppPayload : Nat :=
  if LORA_COMM_MAX_PAYLOAD ≤ kHeaderSize then 0 else LORA_COMM_MAX_PAYLOAD - kHeaderSize

/-- `LoRaComm::allocateMsgId`: returns the allocated id and the new
`nextMessageId` (a `uint16_t`, so the post-increment wraps at 65536 and the
zero value is skipped at the next allocation). -/
def allocateMsgId (nextMessageId : Nat) : Nat × Nat :=
  let cur := if nextMessageId = 0 then 1 else nextMessageId
  (cur, (cur + 1) % 65536)

/-- `LoRaComm::buildFrame`: header plus copied payload; returns the frame
bytes and the `uint8_t` frame length. -/
def buildFrame (t : FrameType) (src dst msgId : Nat) (payload : List Nat)
    (length : Nat) (flags : Nat) : List Nat × Nat :=
  ([kProtocolVersion, t.toByte, flags, src, dst, (msgId >>> 8) % 256, msgId % 256]
     ++ payload.take length,
   (kHeaderSize + length) % 256)

/-- `LoRaComm::sendData`: admission (payload size, reserved slot) and append
of a fresh outbox entry. -/
def sendData (st : LoRaComm) (destId : Nat) (payload : List Nat) (length : Nat)
    (requireAck : Bool) : Bool × LoRaComm :=
  if length > maxAppPayload then (false, st)
  else if st.outbox.length ≥ LORA_COMM_MAX_OUTBOX - 1 then (false, st)
  else
    let (msgId, nextId) := allocateMsgId st.nextMessageId
    let flags := if requireAck then kFlagRequireAck else 0
    let (buf, flen) := buildFrame .data st.selfId destId msgId payload length flags
    let m : OutMsg :=
      { inUse := true, ftype := .data, destId := destId, msgId := msgId,
        requireAck := requireAck, attempts := 0, nextAttemptMs := 0,
        length := flen, buf := buf }
    (true, { st with outbox := st.outbox ++ [m], nextMessageId := nextId })

/-- `LoRaComm::compactOutbox`: drop entries not in use, and entries with
`requireAck && attempts >= MAX_RETRIES` whose deadline has passed (counting
the latter in `statsDropped`); keep the rest in order.  The source reads
`millis()` for the deadline test; `now` stands for it. -/
def compactOutbox (now : Nat) (st : LoRaComm) : LoRaComm :=
  let expired := fun (m : OutMsg) =>
    m.requireAck ∧ m.attempts ≥ LORA_COMM_MAX_RETRIES ∧ 0 ≤ s32sub now m.nextAttemptMs
  let dropped := (st.outbox.filter (fun m => m.inUse ∧ expired m)).length
  { st with
    outbox := st.outbox.filter (fun m => m.inUse ∧ ¬ expired m),
    statsDropped := st.statsDropped + dropped }

/-- `LoRaComm::removeOutboxByMsgId`: clear `inUse` on every matching entry,
then compact. -/
def removeOutboxByMsgId (now : Nat) (msgId : Nat) (st : LoRaComm) : LoRaComm :=
  compactOutbox now
    { st with
      outbox := st.outbox.map (fun m =>
        if m.inUse ∧ m.msgId = msgId then { m with inUse := false } else m) }

instance : Inhabited PeerInfo := ⟨⟨0, 0, false⟩⟩

/-- The argmin scan of `notePeerSeen` (the index of the slot with the
smallest `lastSeenMs`; on ties the earliest index, as the strict `<` scan of
the source keeps the first minimum). -/
def stalestIdx (peers : List PeerInfo) : Option Nat :=
  match peers with
  | [] => none
  | p0 :: rest =>
    some ((rest.enum.foldl
      (fun (best : Nat × Nat) q =>
        if q.2.lastSeenMs < best.2 then (q.1 + 1, q.2.lastSeenMs) else best)
      (0, p0.lastSeenMs)).1)

/-- `LoRaComm::notePeerSeen`: refresh a matching slot, else fill the first
empty slot, else evict the slot with the smallest `lastSeenMs`. -/
def notePeerSeen (peerId now : Nat) (peers : List PeerInfo) : List PeerInfo :=
  if peerId = 0 then peers
  else if peers.any (fun p => p.peerId = peerId) then
    peers.map (fun p => if p.peerId = peerId then { p with lastSeenMs := now } else p)
  else if peers.any (fun p => p.peerId = 0) then
    match peers.findIdx? (fun p => p.peerId = 0) with
    | some i => peers.set i ⟨peerId, now, (peers.getD i default).connected⟩
    | none => peers
  else
    match stalestIdx peers with
    | some i => peers.set i ⟨peerId, now, (peers.getD i default).connected⟩
    | none => peers

/-- `LoRaComm::enterRxMode`. -/
def enterRxMode (now : Nat) (st : LoRaComm) : LoRaComm :=
  { st with radioState := .rx, lastRadioActivityMs := now }

/-- `LoRaComm::sendFrame`: the radio-state bookkeeping around `Radio.Send`
(the frame bytes themselves leave through the radio and are not part of the
engine state). -/
def sendFrame (_frame : List Nat) (_length : Nat) (now : Nat) (st : LoRaComm) : LoRaComm :=
  { st with lastRadioActivityMs := now, radioState := .tx }

/-- `LoRaComm::selectNextOutboxIndex`: prefer the due REQUIRE_ACK retry with
the smallest `nextAttemptMs - nowMs` (a wrapping `uint32_t` difference, with
`bestDue` starting at 0), else the first never-attempted entry. -/
def selectNextOutboxIndex (now : Nat) (outbox : List OutMsg) : Option Nat :=
  let phase1 := outbox.enum.foldl
    (fun (best : Option (Nat × Nat)) (q : Nat × OutMsg) =>
      if q.2.inUse ∧ q.2.requireAck ∧ 0 < q.2.attempts
          ∧ q.2.attempts < LORA_COMM_MAX_RETRIES
          ∧ 0 ≤ s32sub now q.2.nextAttemptMs then
        match best with
        | none => some (q.1, u32sub q.2.nextAttemptMs now)
        | some b =>
          if u32sub q.2.nextAttemptMs now < b.2 then some (q.1, u32sub q.2.nextAttemptMs now)
          else best
      else best)
    none
  match phase1 with
  | some b => some b.1
  | none => outbox.findIdx? (fun m => m.inUse ∧ m.attempts = 0)

/-- The recent-activity test of the slave branch of
`LoRaComm::updateConnectionState`: a sufficiently recent ACK, or a connected
peer-table entry for the master. -/
def slaveHasRecentActivity (now : Nat) (st : LoRaComm) : Bool :=
  if st.lastAckOkMs ≠ 0 ∧ s32sub now st.lastAckOkMs < s32 st.peerTimeoutMs then true
  else st.peers.any (fun p => p.peerId = st.masterNodeId ∧ p.connected)

/-- `LoRaComm::updateConnectionState`.  The master is `Connected` iff some
peer slot is connected; the slave runs the
Disconnected/Connecting/Connected machine, enqueueing an empty REQUIRE_ACK
registration frame through `sendData` when a reconnect attempt is due. -/
def updateConnectionState (now : Nat) (st : LoRaComm) : LoRaComm :=
  if st.mode = .master then
    let hasActivePeers := st.peers.any (fun p => p.peerId ≠ 0 ∧ p.connected)
    { st with connectionState := if hasActivePeers then .connected else .disconnected }
  else
    if slaveHasRecentActivity now st then
      { st with connectionState := .connected }
    else
      match st.connectionState with
      | .connected =>
        { st with connectionState := .disconnected, nextReconnectAttemptMs := now }
      | .disconnected =>
        if now ≥ st.nextReconnectAttemptMs then
          let st1 := { st with connectionState := ConnState.connecting,
                               connectionAttemptStartMs := now }
          let r := sendData st1 st1.masterNodeId [] 0 true
          if r.1 then r.2
          else { r.2 with connectionState := .disconnected,
                          nextReconnectAttemptMs := u32add now 500 }
        else st
      | .connecting =>
        let connectingTimeout := LORA_COMM_ACK_TIMEOUT_MS * LORA_COMM_MAX_RETRIES + 2000
        if u32sub now st.connectionAttemptStartMs > connectingTimeout then
          { st with connectionState := .disconnected,
                    nextReconnectAttemptMs := u32add now LORA_COMM_RECONNECT_ATTEMPT_MS }
        else st

/-- The shared soft-timeout treatment of the in-flight entry, as duplicated
in `LoRaComm::tick` (TX watchdog) and `LoRaComm::onTxTimeout`: the first
in-use entry matching `msgId` is rescheduled at `now + ACK_TIMEOUT` when it
requires an ACK, else marked unused (counted as dropped). -/
def outboxSoftTimeout (now msgId : Nat) (outbox : List OutMsg) : List OutMsg × Nat :=
  match outbox with
  | [] => ([], 0)
  | m :: rest =>
    if m.inUse ∧ m.msgId = msgId then
      if m.requireAck then
        ({ m with nextAttemptMs := u32add now LORA_COMM_ACK_TIMEOUT_MS } :: rest, 0)
      else
        ({ m with inUse := false } :: rest, 1)
    else
      let r := outboxSoftTimeout now msgId rest
      (m :: r.1, r.2)

/-- The best-effort cleanup in `LoRaComm::onTxDone`: mark the first in-use
entry matching `msgId` unused when it does not require an ACK; the returned
flag says whether the marking (and hence the source's immediate
`compactOutbox()` call) happened. -/
def outboxMarkTxDone (msgId : Nat) (outbox : List OutMsg) : List OutMsg × Bool :=
  match outbox with
  | [] => ([], false)
  | m :: rest =>
    if m.inUse ∧ m.msgId = msgId then
      if m.requireAck then (m :: rest, false)
      else ({ m with inUse := false } :: rest, true)
    else
      let r := outboxMarkTxDone msgId rest
      (m :: r.1, r.2)

/-- `LoRaComm::onTxDone`. -/
def onTxDone (now : Nat) (st : LoRaComm) : LoRaComm :=
  let st := { st with lastRadioActivityMs := now, radioState := RadioState.idle,
                      txStuckConsecutive := 0 }
  let justSent := st.currentTxMsgId
  let st :=
    if justSent ≠ 0 then
      let r := outboxMarkTxDone justSent st.outbox
      if r.2 then compactOutbox now { st with outbox := r.1 }
      else { st with outbox := r.1 }
    else st
  enterRxMode now { st with currentTxMsgId := 0 }

/-- `LoRaComm::onTxTimeout`. -/
def onTxTimeout (now : Nat) (st : LoRaComm) : LoRaComm :=
  let st := { st with lastRadioActivityMs := now, radioState := RadioState.idle,
                      statsTxTimeouts := st.statsTxTimeouts + 1,
                      txStuckConsecutive := 0 }
  let timedOut := st.currentTxMsgId
  let st :=
    if timedOut ≠ 0 then
      let r := outboxSoftTimeout now timedOut st.outbox
      compactOutbox now { st with outbox := r.1, statsDropped := st.statsDropped + r.2 }
    else st
  enterRxMode now { st with currentTxMsgId := 0 }

/-- `LoRaComm::onRxDone`: header validation, peer tracking, and the
DATA / ACK dispatch.  Returns the new state and the callback invocations. -/
def onRxDone (st : LoRaComm) (payload : List Nat) (size : Nat) (rssi : Int)
    (now : Nat) : LoRaComm × List LoRaEvent :=
  let st := { st with lastRadioActivityMs := now, lastRssiDbm := rssi,
                      radioState := RadioState.idle }
  if size < kHeaderSize then (enterRxMode now st, [])
  else
    let ver := payload.getD 0 0
    let typeByte := payload.getD 1 0
    let flags := payload.getD 2 0
    let src := payload.getD 3 0
    let dst := payload.getD 4 0
    let msgId := ((payload.getD 5 0) <<< 8) ||| payload.getD 6 0
    let appLen := (size - kHeaderSize) % 256
    if ¬ (dst = 255 ∨ dst = st.selfId) then (enterRxMode now st, [])
    else if ver ≠ kProtocolVersion then (enterRxMode now st, [])
    else
      let st := { st with peers := notePeerSeen src now st.peers }
      match typeByte with
      | 2 =>
        let st := { st with statsRxAck := st.statsRxAck + 1 }
        let st := if st.mode = LoRaMode.slave then { st with lastAckOkMs := now } else st
        let st := removeOutboxByMsgId now msgId st
        (enterRxMode now st, [LoRaEvent.ackReceived src msgId])
      | 1 =>
        let st :=
          if flags &&& kFlagRequireAck ≠ 0 then
            { st with rxAckTargetId := src, rxAckMessageId := msgId, rxPendingAck := true }
          else st
        let st := { st with statsRxData := st.statsRxData + 1 }
        let events :=
          if 0 < appLen then
            [LoRaEvent.dataReceived src ((payload.drop kHeaderSize).take appLen) appLen]
          else []
        (enterRxMode now st, events)
      | _ => (enterRxMode now st, [])

/-- `LoRaComm::forceReconnect` (`millis()` passed as `now`). -/
def forceReconnect (now : Nat) (st : LoRaComm) : LoRaComm :=
  if st.mode = .slave then
    { st with connectionState := .connecting,
              nextReconnectAttemptMs := u32add now LORA_COMM_RECONNECT_ATTEMPT_MS }
  else st

/-- `LoRaComm::getLastRssiDbm`: the `INT16_MIN` sentinel until `lastAckOkMs`
has ever been set. -/
def getLastRssiDbm (st : LoRaComm) : Int :=
  if st.lastAckOkMs = 0 then -32768 else st.lastRssiDbm

/-- `LoRaComm::isConnected`. -/
def isConnected (st : LoRaComm) : Bool :=
  st.connectionState = ConnState.connected

/-- The slave arm of the peer-aging loop of `LoRaComm::tick`: refresh
`connected` of the first slot whose `peerId` equals the master id, then stop
(the source breaks out of the loop). -/
def agingSlaveFirstMaster (masterId timeoutMs now : Nat) :
    List PeerInfo → List PeerInfo
  | [] => []
  | p :: rest =>
    if p.peerId = masterId then
      { p with connected := s32sub now p.lastSeenMs < s32 timeoutMs } :: rest
    else p :: agingSlaveFirstMaster masterId timeoutMs now rest

/-- The TX-watchdog phase of `LoRaComm::tick` (step 1): recover a stuck TX,
reinitialize the radio after `TX_STUCK_REINIT_COUNT` consecutive stuck
events, soft-timeout the in-flight entry, and force RX. -/
def tickWatchdog (now : Nat) (st : LoRaComm) : LoRaComm :=
  if st.radioState = RadioState.tx
      ∧ s32sub now st.lastRadioActivityMs > (LORA_COMM_TX_GUARD_MS : Int) then
    let st := { st with txStuckConsecutive := st.txStuckConsecutive + 1 }
    let st :=
      if st.txStuckConsecutive ≥ LORA_COMM_TX_STUCK_REINIT_COUNT then
        { enterRxMode now st with txStuckConsecutive := 0 }
      else st
    let st :=
      if st.currentTxMsgId ≠ 0 then
        let r := outboxSoftTimeout now st.currentTxMsgId st.outbox
        let st := compactOutbox now
          { st with outbox := r.1, statsDropped := st.statsDropped + r.2 }
        { st with currentTxMsgId := 0 }
      else st
    enterRxMode now { st with radioState := RadioState.idle }
  else st

/-- The peer-aging phase of `LoRaComm::tick` (step 2): recompute each
the `connected` flag of each slot from `now - last_seen < peer_timeout` —
every non-empty slot on a master, only the master slot on a slave. -/
def tickPeerAging (now : Nat) (st : LoRaComm) : LoRaComm :=
  if st.mode = .master then
    { st with peers := st.peers.map (fun p =>
        if p.peerId ≠ 0 then
          { p with connected := s32sub now p.lastSeenMs < s32 st.peerTimeoutMs }
        else p) }
  else
    { st with peers := agingSlaveFirstMaster st.masterNodeId st.peerTimeoutMs now st.peers }

/-- The dispatch phases of `LoRaComm::tick` (steps 4-7): flush a pending
ACK, else transmit/retry the selected outbox entry, else run stall
detection, compact the outbox, and apply the stats-reset side effect of the
final `LOG_EVERY_MS(5000, ...)` block. -/
def tickDispatch (now : Nat) (st : LoRaComm) : LoRaComm × List LoRaEvent :=
  if st.rxPendingAck ∧ st.radioState ≠ RadioState.tx then
    let fl := buildFrame .ack st.selfId st.rxAckTargetId st.rxAckMessageId [] 0 0
    let st := sendFrame fl.1 fl.2 now st
    ({ st with rxPendingAck := false }, [])
  else
    match (if st.radioState ≠ RadioState.tx then selectNextOutboxIndex now st.outbox else none) with
    | some idx =>
      let m := st.outbox.getD idx default
      let m2 := { m with
        attempts := m.attempts + 1,
        nextAttemptMs := if m.requireAck then u32add now LORA_COMM_ACK_TIMEOUT_MS
                         else m.nextAttemptMs }
      let st := { st with
        outbox := st.outbox.set idx m2,
        awaitingAckMsgId := if m.requireAck then m.msgId else st.awaitingAckMsgId,
        awaitingAckSrcId := if m.requireAck then 0 else st.awaitingAckSrcId,
        statsTx := st.statsTx + 1,
        statsOutboxMax := max st.statsOutboxMax st.outbox.length,
        currentTxMsgId := m.msgId }
      (sendFrame m2.buf m2.length now st, [])
    | none =>
      let st :=
        if 0 < st.outbox.length ∧ st.radioState ≠ RadioState.tx then
          let st := if st.stallDetectStartMs = 0 then { st with stallDetectStartMs := now } else st
          if ¬ st.stallActive
              ∧ u32sub now st.stallDetectStartMs > LORA_COMM_ACK_TIMEOUT_MS + 200 then
            { st with stallActive := true }
          else st
        else
          { st with stallActive := false, stallDetectStartMs := 0 }
      let st := compactOutbox now st
      let st :=
        if u32sub now st.statsLogLastMs ≥ 5000 then
          { st with statsLogLastMs := now, statsTx := 0, statsRxData := 0,
                    statsRxAck := 0, statsDropped := 0,
                    statsOutboxMax := st.outbox.length }
        else st
      (st, [])

/-- `LoRaComm::tick`: record the tick time, then run the TX watchdog, peer
aging, the connection state machine, and the dispatch phases, in the order
the source lists them.  Returns the new state and the callback invocations
(the tick path of `lora_comm.h` invokes no callback: dropped entries are
only logged and counted). -/
def tick (now : Nat) (st0 : LoRaComm) : LoRaComm × List LoRaEvent :=
  tickDispatch now
    (updateConnectionState now
      (tickPeerAging now
        (tickWatchdog now { st0 with lastNowMs := now })))

/-! ## Remote sensor pipeline (`remote/sensor_implementations.hpp`) -/

/-- Telemetry keys.  Modelled from the spec: `lib/telemetry_keys.h` is not
under `src/`; spec section 3 fixes the closed key set `batt`, `pd`, `tv`,
`ec`, `tsr`. -/
def TelemetryKeys.BatteryPercent : String := "batt"

/-- Telemetry key `pd` (pulse delta).  Modelled from the spec (see
`TelemetryKeys.BatteryPercent`). -/
def TelemetryKeys.PulseDelta : String := "pd"

/-- Telemetry key `tv` (total volume).  Modelled from the spec. -/
def TelemetryKeys.TotalVolume : String := "tv"

/-- Telemetry key `ec` (error count).  Modelled from the spec. -/
def TelemetryKeys.ErrorCount : String := "ec"

/-- Telemetry key `tsr` (time since reset).  Modelled from the spec. -/
def TelemetryKeys.TimeSinceReset : String := "tsr"

/-- `SensorReading` (`remote/sensor_interface.hpp`): the `float value` is
modelled as `Option ℚ`, with `none` for NaN. -/
structure SensorReading where
  type : String
  value : Option ℚ
  timestamp : Nat
  deriving Repr, DecidableEq

/-- The C `(int)` cast of a float value: truncation toward zero. -/
def cIntCast (q : ℚ) : Int :=
  if q < 0 then Rat.ceil q else Rat.floor q

/-- Arduino `String(value, 2)`: fixed two-decimal rendering with rounding
half away from zero for the nonnegative values the firmware formats. -/
def ratToFixed2 (q : ℚ) : String :=
  let n : Int := Rat.floor (q * 100 + 1 / 2)
  let sign := if n < 0 then "-" else ""
  let m := n.natAbs
  let r := m % 100
  sign ++ toString (m / 100) ++ "." ++ (if r < 10 then "0" ++ toString r else toString r)

/-- The per-reading value formatting of
`LoRaBatchTransmitter::formatReadings`: `nan` for NaN, decimal integers for
the counter keys, `%.2f` for the rest. -/
def formatValue (key : String) (v : Option ℚ) : String :=
  match v with
  | none => "nan"
  | some q =>
    if key = TelemetryKeys.PulseDelta ∨ key = TelemetryKeys.BatteryPercent
        ∨ key = TelemetryKeys.ErrorCount ∨ key = TelemetryKeys.TimeSinceReset then
      toString (cIntCast q)
    else ratToFixed2 q

/-- `LoRaBatchTransmitter::formatReadings`: the comma-separated
`key:value` rendering. -/
def formatReadings (rs : List SensorReading) : String :=
  String.intercalate "," (rs.map (fun r => r.type ++ ":" ++ formatValue r.type r.value))

/-- `ILoRaHal::isReadyForTx`.  Modelled from the spec: the batch
transmitter calls `_loraHal->isReadyForTx()`, but no such member exists on
`ILoRaHal`/`LoRaComm` under `src/`; spec section 4.3 defines it as "true iff
the engine is not mid-TX and can immediately attempt to send a new frame". -/
def isReadyForTx (st : LoRaComm) : Bool :=
  st.radioState ≠ RadioState.tx

/-- The observable outcome of one `LoRaBatchTransmitter::update` call,
matching its return paths and log lines. -/
inductive BatchOutcome where
  | idle
  | notConnected
  | busy
  | emptyPayload
  | droppedTooLarge
  | queued
  | sendRefused
  deriving Repr, DecidableEq

/-- `LoRaBatchTransmitter::update`: defer when not connected or busy, drop
the batch when the formatted payload is empty or longer than
`LORA_COMM_MAX_PAYLOAD`, otherwise hand it to `LoRaComm::sendData` with
`require_ack = true` and clear the buffer only on success.  Returns the new
engine state, the new `_readings` buffer and the outcome. -/
def batchUpdate (st : LoRaComm) (masterNodeId : Nat) (readings : List SensorReading) :
    LoRaComm × List SensorReading × BatchOutcome :=
  if readings = [] then (st, readings, .idle)
  else if ¬ isConnected st then (st, readings, .notConnected)
  else if ¬ isReadyForTx st then (st, readings, .busy)
  else
    let payload := formatReadings readings
    if payload.length = 0 then (st, [], .emptyPayload)
    else if payload.length > LORA_COMM_MAX_PAYLOAD then (st, [], .droppedTooLarge)
    else
      let r := sendData st masterNodeId (payload.data.map Char.toNat) payload.length true
      if r.1 then (r.2, [], .queued) else (r.2, readings, .sendRefused)

/-- `YFS201WaterFlowSensor::PULSES_PER_LITER` (the `450.0f` constant of the
live implementation in `sensor_implementations.hpp`). -/
def PULSES_PER_LITER : ℚ := 450

/-- The state of a `YFS201WaterFlowSensor` shared with its ISR:
`_pulseCount` (the `volatile uint32_t` the ISR increments) and
`_totalPulses`. -/
structure YFS201 where
  pulseCount : Nat
  totalPulses : Nat
  enabled : Bool
  deriving Repr, DecidableEq

/-- `YFS201WaterFlowSensor::pulseCounter`: the ISR increments the shared
`uint32_t` counter. -/
def yfsIsr (s : YFS201) : YFS201 :=
  { s with pulseCount := (s.pulseCount + 1) % 4294967296 }

/-- `YFS201WaterFlowSensor::read`: NaN readings when disabled; otherwise
snapshot-and-zero the ISR counter inside the interrupt-masked critical
section, accumulate into `_totalPulses`, and emit the `pd` and `tv`
readings. -/
def yfsRead (s : YFS201) (now : Nat) : YFS201 × List SensorReading :=
  if ¬ s.enabled then
    (s, [⟨TelemetryKeys.PulseDelta, none, now⟩, ⟨TelemetryKeys.TotalVolume, none, now⟩])
  else
    let currentPulses := s.pulseCount
    let s := { s with pulseCount := 0 }
    let total := (s.totalPulses + currentPulses) % 4294967296
    ({ s with totalPulses := total },
     [⟨TelemetryKeys.PulseDelta, some (currentPulses : ℚ), now⟩,
      ⟨TelemetryKeys.TotalVolume, some ((total : ℚ) / PULSES_PER_LITER), now⟩])

/-! ## Relay device manager (`relay/remote_device_manager.h`) -/

/-- `Messaging::CommandType::ResetWaterVolume`.  Modelled from the spec:
`lib/common_message_types.h` is not under `src/`; spec section 6 fixes the
opcode `0x01`. -/
def ResetWaterVolumeOpcode : Nat := 1

/-- `RESET_INTERVAL_MS = 24 * 60 * 60 * 1000`. -/
def RESET_INTERVAL_MS : Nat := 24 * 60 * 60 * 1000

/-- `RemoteDeviceState` (the `float dailyVolumeLiters` as `ℚ`). -/
structure RemoteDeviceState where
  deviceId : Nat
  lastResetMs : Nat
  dailyVolumeLiters : ℚ
  errorCount : Nat
  timeSinceResetSec : Nat
  lastMessageMs : Nat
  lastTsrSec : Nat
  needsSave : Bool
  deriving Repr, DecidableEq

/-- Externally visible effects of `RemoteDeviceManager::update`:
`sendResetCommand` hands `sendData(deviceId, payload, len, true)` to the
LoRa HAL, and `saveState` flushes one record to persistence. -/
inductive DMEvent where
  | sendCmd (destId : Nat) (payload : List Nat) (requireAck : Bool)
  | save (deviceId : Nat)
  deriving Repr, DecidableEq

/-- The daily-reset rule of `RemoteDeviceManager::update` (the first block
of the per-device loop body): when the wrapping age exceeds 24 h, send
`ResetWaterVolume` with `require_ack = true`, zero the daily volume and the
error count, restart the timer, and mark the record dirty. -/
def dmResetStep (now : Nat) (d : RemoteDeviceState) : RemoteDeviceState × List DMEvent :=
  if u32sub now d.lastResetMs > RESET_INTERVAL_MS then
    ({ d with dailyVolumeLiters := 0, lastResetMs := now, errorCount := 0, needsSave := true },
     [DMEvent.sendCmd d.deviceId [ResetWaterVolumeOpcode] true])
  else (d, [])

/-- The flush rule of `RemoteDeviceManager::update` (the second block of the
per-device loop body): `saveState` persists a dirty record and clears
`needsSave`. -/
def dmFlushStep (d : RemoteDeviceState) : RemoteDeviceState × List DMEvent :=
  if d.needsSave then ({ d with needsSave := false }, [DMEvent.save d.deviceId]) else (d, [])

/-- `RemoteDeviceManager::update`: the per-device loop, each record passing
through the daily-reset rule and then the flush rule. -/
def dmUpdate (now : Nat) (devs : List RemoteDeviceState) :
    List RemoteDeviceState × List DMEvent :=
  match devs with
  | [] => ([], [])
  | d :: rest =>
    let r1 := dmResetStep now d
    let r2 := dmFlushStep r1.1
    let rr := dmUpdate now rest
    (r2.1 :: rr.1, r1.2 ++ r2.2 ++ rr.2)

/-! ## Action traces over the engine (for whole-history invariants) -/

/-- The external stimuli a `LoRaComm` instance can receive after `begin`:
scheduler ticks, radio IRQ callbacks, application sends, and the remaining
public mutators of `lora_comm.h`. -/
inductive LoRaAction where
  | tick (now : Nat)
  | rx (payload : List Nat) (size : Nat) (rssi : Int) (now : Nat)
  | txDone (now : Nat)
  | txTimeout (now : Nat)
  | send (destId : Nat) (payload : List Nat) (length : Nat) (requireAck : Bool)
  | reconnect (now : Nat)
  | setPeerTimeout (ms : Nat)
  | setMasterNodeId (id : Nat)
  deriving Repr, DecidableEq

/-- Apply one action to the engine state (callback events discarded). -/
def applyAction (st : LoRaComm) : LoRaAction → LoRaComm
  | .tick now => (tick now st).1
  | .rx payload size rssi now => (onRxDone st payload size rssi now).1
  | .txDone now => onTxDone now st
  | .txTimeout now => onTxTimeout now st
  | .send destId payload length requireAck => (sendData st destId payload length requireAck).2
  | .reconnect now => forceReconnect now st
  | .setPeerTimeout ms => { st with peerTimeoutMs := ms }
  | .setMasterNodeId id => { st with masterNodeId := id }

/-- Run a whole action trace. -/
def runActions (st : LoRaComm) (acts : List LoRaAction) : LoRaComm :=
  acts.foldl applyAction st

/-! ## Pulse-conservation traces for the flow sensor -/

/-- Interleavings of ISR firings and scheduler-driven `read()` calls. -/
inductive FlowOp where
  | isr
  | read (now : Nat)
  deriving Repr, DecidableEq

/-- Run a trace of ISR/read events, accumulating the sum of the `pd` values
reported by the enabled reads (each read reports the snapshot
`currentPulses = _pulseCount`, per `yfsRead`). -/
def runFlow (s : YFS201) : List FlowOp → YFS201 × Nat
  | [] => (s, 0)
  | .isr :: rest => runFlow (yfsIsr s) rest
  | .read now :: rest =>
    let emitted := if s.enabled then s.pulseCount else 0
    let r := runFlow (yfsRead s now).1 rest
    (r.1, emitted + r.2)

/-- Number of ISR firings in a trace. -/
def countIsr (ops : List FlowOp) : Nat :=
  ops.countP (fun op => op = FlowOp.isr)

/-! ## Concrete fixtures used by counterexamples and witnesses -/

/-- A master-mode engine whose only outbox entry is a REQUIRE_ACK message
that has exhausted its `MAX_RETRIES = 4` attempts, with `next_attempt`
deadline 1500 ms (already passed at the tick time 2000 ms used below). -/
def stC1 : LoRaComm :=
  { LoRaComm.init .master 1 with
    outbox := [{ inUse := true, ftype := .data, destId := 3, msgId := 42,
                 requireAck := true, attempts := 4, nextAttemptMs := 1500,
                 length := 7, buf := [1, 1, 1, 1, 3, 0, 42] }] }

/-- A freshly begun slave with id 3 (its master has id 1). -/
def stSlave3 : LoRaComm := LoRaComm.init .slave 3

/-- An empty DATA frame (header only) from node 1 to node 3 with the
REQUIRE_ACK flag set and msgId 7 — the slave registration frame shape
(`sendData(masterNodeId, nullptr, 0, true)`). -/
def emptyDataFrame : List Nat := [1, 1, 1, 1, 3, 0, 7]

/-- A best-effort (require_ack = false) queued telemetry DATA entry. -/
def mkBestEffort (i : Nat) : OutMsg :=
  { inUse := true, ftype := .data, destId := 1, msgId := i, requireAck := false,
    attempts := 0, nextAttemptMs := 0, length := 8, buf := [1, 1, 0, 3, 1, 0, i, 65] }

/-- A disconnected slave whose outbox already holds `MAX_OUTBOX - 1 = 7`
queued best-effort DATA entries, with a reconnect attempt due. -/
def stC3 : LoRaComm :=
  { LoRaComm.init .slave 3 with outbox := (List.range 7).map (fun i => mkBestEffort (i + 1)) }

/-- A connected, TX-idle slave with an empty outbox. -/
def stC4 : LoRaComm := { LoRaComm.init .slave 3 with connectionState := .connected }

/-- A realistic five-reading telemetry batch (volume sensor disabled, large
counters) whose CSV rendering
`batt:100,pd:1073741824,tv:nan,ec:1073741824,tsr:1073741824` is 58 bytes
long: over the 57-byte telemetry maximum yet not over
`LORA_COMM_MAX_PAYLOAD = 64` (all values exactly representable in `float`).
-/
def rsC4 : List SensorReading :=
  [⟨"batt", some 100, 0⟩, ⟨"pd", some 1073741824, 0⟩, ⟨"tv", none, 0⟩,
   ⟨"ec", some 1073741824, 0⟩, ⟨"tsr", some 1073741824, 0⟩]

/-- The scheduler table right after `registerTask("t", cb, 100)` at boot
time 0: one enabled task with interval 100 and `nextRunMs = 100`. -/
def tsC5 : List SchedTask := [⟨"t", 100, 100, true⟩]

/-- An enabled flow sensor that has already accumulated 10 pulses. -/
def yfsC8 : YFS201 := { pulseCount := 0, totalPulses := 10, enabled := true }

/-- A relay device record for node 3, last reset at boot time 0. -/
def devC9 : RemoteDeviceState :=
  { deviceId := 3, lastResetMs := 0, dailyVolumeLiters := 5 / 2, errorCount := 2,
    timeSinceResetSec := 0, lastMessageMs := 0, lastTsrSec := 0, needsSave := false }

/-- A short action trace for a master: a tick, a received valid DATA frame
carrying a real RSSI of -42 dBm, a TX completion, and an application send. -/
def actsC10 : List LoRaAction :=
  [LoRaAction.tick 10,
   LoRaAction.rx [1, 1, 1, 3, 1, 0, 9, 65] 8 (-42) 20,
   LoRaAction.txDone 30,
   LoRaAction.send 3 [66] 1 true,
   LoRaAction.tick 60]

/-! ## Helper lemmas -/

/-- `setEnabled` never changes a task's name, interval or deadline. -/
theorem setEnabled_skeleton (ts : List SchedTask) (name : String) (en : Bool) :
    (setEnabled ts name en).map (fun t => (t.name, t.intervalMs, t.nextRunMs))
      = ts.map (fun t => (t.name, t.intervalMs, t.nextRunMs)) := by
  induction ts with
  | nil => rfl
  | cons t rest ih =>
    by_cases h : t.name = name <;> simp [setEnabled, h, ih]

/-- One `TaskScheduler::tick` runs exactly the enabled tasks whose (possibly
stale) deadline has been reached. -/
theorem schedTick_ran (now : Nat) (ts : List SchedTask) :
    (schedTick now ts).2
      = (ts.filter (fun t => t.enabled && decide (0 ≤ s32sub now t.nextRunMs))).map
          (fun t => t.name) := by
  induction ts with
  | nil => rfl
  | cons t rest ih =>
    by_cases h : t.enabled = true ∧ 0 ≤ s32sub now t.nextRunMs
    · simp [schedTick, h, ih, h.1, h.2]
    · rw [Decidable.not_and_iff_or_not] at h
      rcases h with h | h
      · simp [schedTick, h, ih]
      · by_cases he : t.enabled = true
        · simp [schedTick, he, h, ih]
        · simp [schedTick, he, h, ih]

/-! ## Claim C5 — scheduler re-enable semantics -/

/-- C5 (counterexample): the claim "after a later set_enabled(name, true) the
task's next execution occurs at (time of re-enabling) + interval, not
earlier" is false.  With the table registered at boot (`tsC5`, deadline
100 ms, interval 100 ms), disabling and later re-enabling the task restores
the exact original entry — `setEnabled` takes no time argument and leaves
`nextRunMs` untouched — so however late the re-enabling happens, the very
next tick (here at 1001 ms) already runs the task instead of waiting a full
interval past the re-enabling. -/
theorem c5_counterexample :
    setEnabled (setEnabled tsC5 "t" false) "t" true = tsC5
      ∧ (schedTick 1001 (setEnabled (setEnabled tsC5 "t" false) "t" true)).2 = ["t"]
      ∧ (setEnabled (setEnabled tsC5 "t" false) "t" true).map (fun t => t.nextRunMs)
          = [100] := by
  refine ⟨by decide, ?_, by decide⟩
  decide

/-- C5 (amended): `set_enabled(name, false)` leaves the entry in the table,
and `set_enabled` (in either direction) never touches a task's `nextRunMs`
or interval; consequently a tick after re-enabling runs exactly the enabled
tasks whose stale deadline has been reached — which can be earlier than
(time of re-enabling) + interval. -/
theorem c5_reenable_resumes_stale_deadline (ts : List SchedTask) (name : String)
    (en : Bool) (now : Nat) :
    (setEnabled ts name en).map (fun t => (t.name, t.intervalMs, t.nextRunMs))
        = ts.map (fun t => (t.name, t.intervalMs, t.nextRunMs))
      ∧ (schedTick now (setEnabled ts name en)).2
          = ((setEnabled ts name en).filter
              (fun t => t.enabled && decide (0 ≤ s32sub now t.nextRunMs))).map
              (fun t => t.name) :=
  ⟨setEnabled_skeleton ts name en, schedTick_ran now (setEnabled ts name en)⟩

/-! ## Claim C7 — malformed-frame rejection -/

/-- C7: a received frame that is shorter than the 7-byte header, or has a
version byte other than 1, or is addressed neither to this node nor to the
broadcast id 255, invokes neither `on_data_received` nor `on_ack_received`,
schedules no pending ACK, and leaves the peer table (and the outbox)
unchanged. -/
theorem c7_invalid_frame_silently_dropped (st : LoRaComm) (payload : List Nat)
    (size : Nat) (rssi : Int) (now : Nat)
    (h : size < kHeaderSize ∨ payload.getD 0 0 ≠ kProtocolVersion
      ∨ (payload.getD 4 0 ≠ 255 ∧ payload.getD 4 0 ≠ st.selfId)) :
    (onRxDone st payload size rssi now).2 = []
      ∧ (onRxDone st payload size rssi now).1.peers = st.peers
      ∧ (onRxDone st payload size rssi now).1.rxPendingAck = st.rxPendingAck
      ∧ (onRxDone st payload size rssi now).1.rxAckTargetId = st.rxAckTargetId
      ∧ (onRxDone st payload size rssi now).1.rxAckMessageId = st.rxAckMessageId
      ∧ (onRxDone st payload size rssi now).1.outbox = st.outbox := by
  unfold onRxDone
  by_cases h1 : size < kHeaderSize
  · simp [h1, enterRxMode]
  · simp only [h1, if_false]
    by_cases h2 : payload.getD 4 0 = 255 ∨ payload.getD 4 0 = st.selfId
    · have h3 : payload.getD 0 0 ≠ kProtocolVersion := by
        rcases h with h | h | h
        · exact absurd h h1
        · exact h
        · rcases h2 with h2 | h2
          · exact absurd h2 h.1
          · exact absurd h2 h.2
      simp only [List.getD_eq_getElem?_getD] at h2 h3
      rcases h2 with h2 | h2 <;> simp [h2, h3, enterRxMode]
    · simp only [List.getD_eq_getElem?_getD] at h2
      simp [h2, enterRxMode]

/-- C7 (witness): a 3-byte runt frame, a version-0 frame, and a frame for
node 9 are all silently dropped by a slave with id 3. -/
theorem c7_witness :
    (onRxDone stSlave3 [1, 1, 1] 3 (-80) 100).2 = []
      ∧ (onRxDone stSlave3 [2, 1, 1, 1, 3, 0, 7] 7 (-80) 100).1.peers = stSlave3.peers
      ∧ (onRxDone stSlave3 [1, 1, 1, 1, 9, 0, 7] 7 (-80) 100).2 = [] :=
  ⟨(c7_invalid_frame_silently_dropped stSlave3 [1, 1, 1] 3 (-80) 100
      (Or.inl (by decide))).1,
   (c7_invalid_frame_silently_dropped stSlave3 [2, 1, 1, 1, 3, 0, 7] 7 (-80) 100
      (Or.inr (Or.inl (by decide)))).2.1,
   (c7_invalid_frame_silently_dropped stSlave3 [1, 1, 1, 1, 9, 0, 7] 7 (-80) 100
      (Or.inr (Or.inr (by decide)))).1⟩

/-! ## Claim C2 — DATA dispatch to on_data_received -/

/-- C2 (counterexample): the claim that `on_data_received` fires "for every
payload length from 0 to 57, including the empty registration frames a slave
sends to its master" is false at length 0.  `emptyDataFrame` is a perfectly
valid empty REQUIRE_ACK DATA frame from node 1 to slave 3: the receiver
accepts it (it schedules the ACK, as `rxPendingAck` shows) yet emits no
`on_data_received` invocation, because `LoRaComm::onRxDone` guards the
callback with `appLen > 0`. -/
theorem c2_counterexample :
    (onRxDone stSlave3 emptyDataFrame 7 (-80) 100).2 = []
      ∧ (onRxDone stSlave3 emptyDataFrame 7 (-80) 100).1.rxPendingAck = true
      ∧ emptyDataFrame.getD 0 0 = kProtocolVersion
      ∧ emptyDataFrame.getD 1 0 = 1
      ∧ emptyDataFrame.getD 4 0 = stSlave3.selfId
      ∧ emptyDataFrame.length = 7 := by
  refine ⟨?_, by decide, by decide, by decide, by decide, by decide⟩
  decide

/-- C2 (amended): for every received frame that passes validation (size at
least 7, version byte 1, destination the receiver's id or 255) and has type
DATA, the engine invokes `on_data_received(src, payload-after-header,
appLen)` exactly when `appLen > 0` — so for payload lengths 1 to 57 it
fires, while the empty registration frames a slave sends to its master are
accepted (and ACKed when requested) without a callback. -/
theorem c2_data_dispatch (st : LoRaComm) (payload : List Nat) (size : Nat)
    (rssi : Int) (now : Nat)
    (hsz : kHeaderSize ≤ size)
    (hver : payload.getD 0 0 = kProtocolVersion)
    (hty : payload.getD 1 0 = 1)
    (hdst : payload.getD 4 0 = 255 ∨ payload.getD 4 0 = st.selfId) :
    (onRxDone st payload size rssi now).2
      = (if 0 < (size - kHeaderSize) % 256 then
          [LoRaEvent.dataReceived (payload.getD 3 0)
            ((payload.drop kHeaderSize).take ((size - kHeaderSize) % 256))
            ((size - kHeaderSize) % 256)]
        else []) := by
  unfold onRxDone
  have h1 : ¬ size < kHeaderSize := by omega
  simp only [List.getD_eq_getElem?_getD] at hver hty hdst ⊢
  rcases hdst with h2 | h2 <;>
    simp [h1, h2, hver, hty, enterRxMode]

/-- C2 (witness): a 2-byte DATA payload from the master reaches the slave's
`on_data_received` with exactly those two bytes. -/
theorem c2_witness :
    (onRxDone stSlave3 [1, 1, 1, 1, 3, 0, 7, 65, 66] 9 (-80) 100).2
      = [LoRaEvent.dataReceived 1 [65, 66] 2] := by
  have h := c2_data_dispatch stSlave3 [1, 1, 1, 1, 3, 0, 7, 65, 66] 9 (-80) 100
    (by decide) (by decide) (by decide) (Or.inr (by decide))
  simpa using h

/-! ## Claim C6 — the send_data contract -/

/-- The id handed out by `allocateMsgId` is never zero. -/
theorem allocateMsgId_ne_zero (n : Nat) : (allocateMsgId n).1 ≠ 0 := by
  unfold allocateMsgId
  by_cases h : n = 0 <;> simp [h]

/-- C6: `sendData(dst, payload, len, require_ack)` returns `false` exactly
when `len` exceeds the per-frame maximum payload (`maxAppPayload =
MAX_FRAME - 7 = 57`) or the outbox already holds `MAX_OUTBOX - 1 = 7`
entries; otherwise it appends exactly one new entry — `attempts = 0`, a
fresh nonzero `msg_id` taken from the allocator (whose cursor advances),
the given `dst` and `require_ack` flag — and returns `true`. -/
theorem c6_sendData_contract (st : LoRaComm) (destId : Nat) (payload : List Nat)
    (length : Nat) (requireAck : Bool) :
    ((sendData st destId payload length requireAck).1 = false
        ↔ (maxAppPayload < length ∨ LORA_COMM_MAX_OUTBOX - 1 ≤ st.outbox.length))
      ∧ (length ≤ maxAppPayload → st.outbox.length < LORA_COMM_MAX_OUTBOX - 1 →
          (sendData st destId payload length requireAck).1 = true
            ∧ (sendData st destId payload length requireAck).2.outbox
                = st.outbox ++
                  [⟨true, .data, destId, (allocateMsgId st.nextMessageId).1, requireAck, 0, 0,
                    (buildFrame .data st.selfId destId (allocateMsgId st.nextMessageId).1
                      payload length (if requireAck then kFlagRequireAck else 0)).2,
                    (buildFrame .data st.selfId destId (allocateMsgId st.nextMessageId).1
                      payload length (if requireAck then kFlagRequireAck else 0)).1⟩]
            ∧ (allocateMsgId st.nextMessageId).1 ≠ 0
            ∧ (sendData st destId payload length requireAck).2.nextMessageId
                = (allocateMsgId st.nextMessageId).2)
      ∧ maxAppPayload = 57 ∧ LORA_COMM_MAX_OUTBOX - 1 = 7 := by
  refine ⟨?_, ?_, by decide, by decide⟩
  · unfold sendData
    by_cases hl : length > maxAppPayload
    · simp [hl]
    · by_cases hc : st.outbox.length ≥ LORA_COMM_MAX_OUTBOX - 1
      · simp [hl, hc]
      · simp [hl, hc]
  · intro h1 h2
    unfold sendData
    have hl : ¬ length > maxAppPayload := by omega
    have hc : ¬ st.outbox.length ≥ LORA_COMM_MAX_OUTBOX - 1 := by omega
    refine ⟨by simp [hl, hc], by simp [hl, hc, allocateMsgId], allocateMsgId_ne_zero _,
      by simp [hl, hc, allocateMsgId]⟩

/-- C6 (witness): a one-byte send on a fresh slave succeeds; a send into a
7-entry outbox is refused; a 58-byte payload is refused. -/
theorem c6_witness :
    (sendData stSlave3 1 [65] 1 true).1 = true
      ∧ (sendData stC3 1 [65] 1 true).1 = false
      ∧ (sendData stSlave3 1 (List.replicate 58 65) 58 true).1 = false :=
  ⟨((c6_sendData_contract stSlave3 1 [65] 1 true).2.1 (by decide) (by decide)).1,
   (c6_sendData_contract stC3 1 [65] 1 true).1.mpr (Or.inr (by decide)),
   (c6_sendData_contract stSlave3 1 (List.replicate 58 65) 58 true).1.mpr
     (Or.inl (by decide))⟩

/-! ## Claim C3 — outbox admission and the registration frame -/

/-- C3 (counterexample): the claim that "if even that slot is contested,
queued best-effort (require_ack = false) DATA entries are preempted
(dropped) in FIFO order so the registration enqueue succeeds" is false.
`stC3` is a disconnected slave with a due reconnect attempt whose outbox
holds 7 queued best-effort entries.  Its tick-driven reconnect path
(`updateConnectionState`) tries to enqueue the registration frame, the
enqueue fails, and the outbox afterwards is exactly the same 7 best-effort
entries: nothing was preempted, no registration entry exists, and the slave
fell back to `Disconnected` with a 500 ms retry. -/
theorem c3_counterexample :
    (updateConnectionState 1000 stC3).outbox = stC3.outbox
      ∧ stC3.outbox.length = 7
      ∧ stC3.outbox.all (fun m => !m.requireAck) = true
      ∧ (updateConnectionState 1000 stC3).connectionState = ConnState.disconnected
      ∧ (updateConnectionState 1000 stC3).nextReconnectAttemptMs = 1500 := by
  refine ⟨?_, by decide, by decide, ?_, ?_⟩ <;> decide

/-- C3 (amended): `sendData` reserves the last outbox slot by refusing every
enqueue — registration frames included — once `MAX_OUTBOX - 1 = 7` entries
are queued; no preemption of queued best-effort entries exists.  When the
slot boundary is hit, the slave's due reconnect attempt leaves the whole
state unchanged except that it stays `Disconnected` with
`next_reconnect_attempt = now + 500 ms` (and the recorded attempt start). -/
theorem c3_no_preemption_reserved_slot (st : LoRaComm) (now : Nat)
    (hm : st.mode = .slave)
    (hcs : st.connectionState = .disconnected)
    (hdue : st.nextReconnectAttemptMs ≤ now)
    (hact : slaveHasRecentActivity now st = false)
    (hfull : LORA_COMM_MAX_OUTBOX - 1 ≤ st.outbox.length) :
    updateConnectionState now st
      = { st with connectionState := .disconnected,
                  connectionAttemptStartMs := now,
                  nextReconnectAttemptMs := u32add now 500 }
      ∧ ∀ destId payload length requireAck,
          (sendData st destId payload length requireAck).1 = false
          ∧ (sendData st destId payload length requireAck).2 = st := by
  constructor
  · unfold updateConnectionState
    have hm2 : ¬ st.mode = LoRaMode.master := by rw [hm]; intro hx; cases hx
    simp only [hm2, if_false, hact, hcs]
    simp [hdue, sendData, hfull]
  · intro destId payload length requireAck
    unfold sendData
    by_cases hl : length > maxAppPayload
    · simp [hl]
    · simp [hl, hfull]

/-- C3 (witness): the amended statement applied to the concrete full slave
`stC3` at time 1000 ms. -/
theorem c3_witness :
    updateConnectionState 1000 stC3
      = { stC3 with connectionState := .disconnected,
                    connectionAttemptStartMs := 1000,
                    nextReconnectAttemptMs := u32add 1000 500 }
      ∧ (sendData stC3 1 [] 0 true).1 = false :=
  ⟨(c3_no_preemption_reserved_slot stC3 1000 (by decide) (by decide) (by decide)
      (by decide) (by decide)).1,
   ((c3_no_preemption_reserved_slot stC3 1000 (by decide) (by decide) (by decide)
      (by decide) (by decide)).2 1 [] 0 true).1⟩

/-! ## Claim C1 — retry exhaustion and on_message_dropped -/

/-- C1 (evaluation at the failing input): `stC1` holds one REQUIRE_ACK entry
whose attempts have reached `MAX_RETRIES = 4` and whose `next_attempt`
deadline (1500 ms) has passed at the tick time 2000 ms.  The tick does
remove the entry from the outbox (counting it in `statsDropped`), but it
emits no callback invocation at all: `lora_comm.h` has no
`setOnMessageDropped` and never calls an `on_message_dropped(msg_id,
attempts)` callback — even though `remote_app.cpp` registers exactly such a
handler through `loraHal->setOnMessageDropped(...)`, a member that does not
exist on `ILoRaHal`. -/
theorem c1_drop_without_callback :
    stC1.outbox.length = 1
      ∧ (stC1.outbox.getD 0 default).requireAck = true
      ∧ (stC1.outbox.getD 0 default).attempts = LORA_COMM_MAX_RETRIES
      ∧ 0 ≤ s32sub 2000 (stC1.outbox.getD 0 default).nextAttemptMs
      ∧ (tick 2000 stC1).1.outbox = []
      ∧ (tick 2000 stC1).1.statsDropped = stC1.statsDropped + 1
      ∧ (tick 2000 stC1).2 = [] := by
  refine ⟨by decide, by decide, by decide, by decide, ?_, ?_, ?_⟩ <;> decide

/-! ## Claim C4 — oversize batch handling in the batch transmitter -/

/-- C4 (evaluation at the failing input): with a connected, TX-ready link,
the 58-byte batch `rsC4` — longer than the 57-byte telemetry maximum — is
NOT dropped by `LoRaBatchTransmitter::update`: the oversize check compares
against `LORA_COMM_MAX_PAYLOAD = 64`, so the payload is handed to
`sendData`, which refuses it (it admits at most 57 bytes), and the buffer
is preserved for a retry that can never succeed, instead of being cleared
with a warning. -/
theorem c4_oversize_batch_not_dropped :
    isConnected stC4 = true
      ∧ isReadyForTx stC4 = true
      ∧ (formatReadings rsC4).length = 58
      ∧ 57 < (formatReadings rsC4).length
      ∧ (formatReadings rsC4).length ≤ LORA_COMM_MAX_PAYLOAD
      ∧ (batchUpdate stC4 1 rsC4).2.2 = BatchOutcome.sendRefused
      ∧ (batchUpdate stC4 1 rsC4).2.1 = rsC4
      ∧ (batchUpdate stC4 1 rsC4).1 = stC4 := by
  refine ⟨by decide, by decide, ?_, ?_, ?_, ?_, ?_, ?_⟩ <;> decide

/-! ## Claim C8 — ISR pulse counting -/

/-- The state part of `yfsRead` as a closed form. -/
theorem yfsRead_fst (s : YFS201) (now : Nat) :
    (yfsRead s now).1
      = if s.enabled then { s with pulseCount := 0, totalPulses := (s.totalPulses + s.pulseCount) % 4294967296 } else s := by
  by_cases he : s.enabled <;> simp [yfsRead, he]

/-- K ISR firings add K to the shared counter (below the 32-bit wrap). -/
theorem yfsIsr_iterate (K : Nat) (s : YFS201) (h : s.pulseCount + K < 4294967296) :
    yfsIsr^[K] s = { s with pulseCount := s.pulseCount + K } := by
  induction K generalizing s with
  | zero => simp
  | succ k ih =>
    rw [Function.iterate_succ_apply]
    have h1 : yfsIsr s = { s with pulseCount := s.pulseCount + 1 } := by
      unfold yfsIsr
      congr 1
      omega
    rw [h1, ih { s with pulseCount := s.pulseCount + 1 } (by simp; omega)]
    show YFS201.mk (s.pulseCount + 1 + k) s.totalPulses s.enabled
      = YFS201.mk (s.pulseCount + (k + 1)) s.totalPulses s.enabled
    congr 1
    omega

/-- Pulse conservation across arbitrary interleavings of ISR firings and
reads: the pulses reported so far plus the pulses still pending equal the
initial pending count plus every ISR firing, modulo the 32-bit counter
width.  No pulse is ever lost or double-reported. -/
theorem runFlow_conservation (ops : List FlowOp) (s : YFS201) :
    ((runFlow s ops).2 + (runFlow s ops).1.pulseCount) % 4294967296
      = (s.pulseCount + countIsr ops) % 4294967296 := by
  induction ops generalizing s with
  | nil => simp [runFlow, countIsr]
  | cons op rest ih =>
    cases op with
    | isr =>
      have hrec := ih (yfsIsr s)
      have hp : (yfsIsr s).pulseCount = (s.pulseCount + 1) % 4294967296 := rfl
      rw [hp] at hrec
      simp only [countIsr, List.countP_cons] at hrec ⊢
      simp only [runFlow]
      simp at hrec ⊢
      omega
    | read now =>
      have hrec := ih (yfsRead s now).1
      rw [yfsRead_fst] at hrec
      simp only [runFlow, yfsRead_fst]
      simp only [countIsr, List.countP_cons] at hrec ⊢
      by_cases he : s.enabled = true
      · simp [he] at hrec ⊢
        omega
      · simp [he] at hrec ⊢
        omega

/-- C8: for any K ISR firings between two consecutive reads of the enabled
sensor (the previous read left `pulseCount = 0`), the next read reports
`pd = K`, adds K to the persistent total, and reports
`tv = total / PULSES_PER_LITER` liters; and across arbitrary interleavings
of ISR firings and reads, pulses are conserved (`runFlow_conservation`
instantiated here), so edges landing around the critical section are
counted in a later read rather than lost. -/
theorem c8_pulse_counting (s : YFS201) (K now : Nat)
    (hen : s.enabled = true) (h0 : s.pulseCount = 0)
    (hK : K < 4294967296) (hT : s.totalPulses + K < 4294967296) :
    (yfsRead (yfsIsr^[K] s) now).1.pulseCount = 0
      ∧ (yfsRead (yfsIsr^[K] s) now).1.totalPulses = s.totalPulses + K
      ∧ (yfsRead (yfsIsr^[K] s) now).2
          = [⟨TelemetryKeys.PulseDelta, some (K : ℚ), now⟩,
             ⟨TelemetryKeys.TotalVolume,
              some (((s.totalPulses + K : ℚ)) / PULSES_PER_LITER), now⟩]
      ∧ ∀ (ops : List FlowOp) (s2 : YFS201),
          ((runFlow s2 ops).2 + (runFlow s2 ops).1.pulseCount) % 4294967296
            = (s2.pulseCount + countIsr ops) % 4294967296 := by
  have hiter : yfsIsr^[K] s = { s with pulseCount := s.pulseCount + K } :=
    yfsIsr_iterate K s (by omega)
  rw [hiter]
  refine ⟨by simp [yfsRead, hen], ?_, ?_, fun ops s2 => runFlow_conservation ops s2⟩
  · simp [yfsRead, hen, h0]
    omega
  · simp [yfsRead, hen, h0]
    rw [show (s.totalPulses + K) % 4294967296 = s.totalPulses + K from by omega]
    push_cast
    ring

/-- C8 (witness): three ISR firings on `yfsC8` (total already 10) make the
next read report `pd = 3` and `tv = 13/450` liters. -/
theorem c8_witness :
    (yfsRead (yfsIsr^[3] yfsC8) 5).1.totalPulses = yfsC8.totalPulses + 3
      ∧ (yfsRead (yfsIsr^[3] yfsC8) 5).2
          = [⟨TelemetryKeys.PulseDelta, some (3 : ℚ), 5⟩,
             ⟨TelemetryKeys.TotalVolume,
              some (((yfsC8.totalPulses + 3 : ℚ)) / PULSES_PER_LITER), 5⟩] :=
  ⟨(c8_pulse_counting yfsC8 3 5 (by decide) (by decide) (by decide) (by decide)).2.1,
   (c8_pulse_counting yfsC8 3 5 (by decide) (by decide) (by decide) (by decide)).2.2.1⟩

/-! ## Claim C9 — relay daily reset -/

/-- In the wrap-free regime the `uint32_t` subtraction is plain
subtraction. -/
theorem u32sub_of_le (a b : Nat) (ha : a < 4294967296) (hle : b ≤ a) :
    u32sub a b = a - b := by
  unfold u32sub
  have hb : b < 4294967296 := by omega
  rw [Nat.mod_eq_of_lt ha, Nat.mod_eq_of_lt hb]
  omega

/-- C9: on each device-manager update, a record whose age
`now - last_reset_at` exceeds 24 hours gets a `ResetWaterVolume` command
(payload `[0x01]`) sent with `require_ack = true`, its daily volume and
error count zeroed, its timer restarted at `now`, and is marked dirty (the
flush rule then persists it in the same pass); a record not past the
deadline is left unchanged by this rule; and `update` runs exactly these two
rules, in order, on every record. -/
theorem c9_daily_reset (now : Nat) (d : RemoteDeviceState)
    (hnow : now < 4294967296) (hle : d.lastResetMs ≤ now) :
    (RESET_INTERVAL_MS < now - d.lastResetMs →
        dmResetStep now d
          = ({ d with dailyVolumeLiters := 0, lastResetMs := now, errorCount := 0, needsSave := true },
             [DMEvent.sendCmd d.deviceId [ResetWaterVolumeOpcode] true]))
      ∧ (now - d.lastResetMs ≤ RESET_INTERVAL_MS → dmResetStep now d = (d, []))
      ∧ ∀ devs : List RemoteDeviceState,
          dmUpdate now devs
            = (devs.map (fun x => (dmFlushStep (dmResetStep now x).1).1),
               devs.flatMap (fun x =>
                 (dmResetStep now x).2 ++ (dmFlushStep (dmResetStep now x).1).2)) := by
  have hsub : u32sub now d.lastResetMs = now - d.lastResetMs :=
    u32sub_of_le now d.lastResetMs hnow hle
  refine ⟨?_, ?_, ?_⟩
  · intro h
    unfold dmResetStep
    rw [hsub]
    simp [h]
  · intro h
    unfold dmResetStep
    rw [hsub]
    rw [if_neg (by omega)]
  · intro devs
    induction devs with
    | nil => rfl
    | cons x rest ih =>
      simp only [dmUpdate, ih, List.map_cons, List.flatMap_cons]

/-- C9 (witness): device `devC9` (last reset at 0) is reset at
`24 h + 1 ms` — command `[0x01]` with ACK required, fields zeroed — and is
left alone one millisecond before the deadline. -/
theorem c9_witness :
    dmResetStep 86400001 devC9
        = ({ devC9 with dailyVolumeLiters := 0, lastResetMs := 86400001, errorCount := 0, needsSave := true },
           [DMEvent.sendCmd devC9.deviceId [ResetWaterVolumeOpcode] true])
      ∧ dmResetStep 86400000 devC9 = (devC9, []) :=
  ⟨(c9_daily_reset 86400001 devC9 (by decide) (by decide)).1 (by decide),
   (c9_daily_reset 86400000 devC9 (by decide) (by decide)).2.1 (by decide)⟩

/-! ## Claim C10 — the INT16_MIN RSSI sentinel -/

/-- The TX watchdog phase never touches `mode` or `lastAckOkMs`. -/
theorem tickWatchdog_mode (now : Nat) (st : LoRaComm) :
    (tickWatchdog now st).mode = st.mode ∧ (tickWatchdog now st).lastAckOkMs = st.lastAckOkMs := by
  unfold tickWatchdog
  dsimp only
  split_ifs <;> exact ⟨rfl, rfl⟩

/-- The dispatch phase never touches `mode` or `lastAckOkMs`. -/
theorem tickDispatch_mode (now : Nat) (st : LoRaComm) :
    (tickDispatch now st).1.mode = st.mode ∧ (tickDispatch now st).1.lastAckOkMs = st.lastAckOkMs := by
  unfold tickDispatch
  dsimp only
  repeat' first
    | exact ⟨rfl, rfl⟩
    | split

/-- `sendData` never touches `mode` or `lastAckOkMs`. -/
theorem sendData_mode (st : LoRaComm) (d : Nat) (p : List Nat) (l : Nat) (r : Bool) :
    (sendData st d p l r).2.mode = st.mode ∧ (sendData st d p l r).2.lastAckOkMs = st.lastAckOkMs := by
  unfold sendData
  split_ifs <;> exact ⟨rfl, rfl⟩

set_option maxRecDepth 4000 in
/-- The connection state machine never touches `mode` or `lastAckOkMs`
(only `onRxDone` writes `lastAckOkMs`). -/
theorem ucs_pres (now : Nat) (st : LoRaComm) :
    (updateConnectionState now st).mode = st.mode
      ∧ (updateConnectionState now st).lastAckOkMs = st.lastAckOkMs := by
  unfold updateConnectionState
  dsimp only
  repeat' split
  all_goals first
    | exact ⟨rfl, rfl⟩
    | exact ⟨(sendData_mode _ _ _ _ _).1, (sendData_mode _ _ _ _ _).2⟩

/-- Peer aging never touches `mode` or `lastAckOkMs`. -/
theorem tickPeerAging_pres (now : Nat) (st : LoRaComm) :
    (tickPeerAging now st).mode = st.mode ∧ (tickPeerAging now st).lastAckOkMs = st.lastAckOkMs := by
  unfold tickPeerAging
  split <;> exact ⟨rfl, rfl⟩

/-- `tick` never touches `mode` or `lastAckOkMs`. -/
theorem tick_pres (now : Nat) (st : LoRaComm) :
    (tick now st).1.mode = st.mode ∧ (tick now st).1.lastAckOkMs = st.lastAckOkMs := by
  unfold tick
  constructor
  · rw [(tickDispatch_mode _ _).1, (ucs_pres _ _).1, (tickPeerAging_pres _ _).1,
      (tickWatchdog_mode _ _).1]
  · rw [(tickDispatch_mode _ _).2, (ucs_pres _ _).2, (tickPeerAging_pres _ _).2,
      (tickWatchdog_mode _ _).2]

/-- `onTxDone` never touches `mode` or `lastAckOkMs`. -/
theorem onTxDone_pres (now : Nat) (st : LoRaComm) :
    (onTxDone now st).mode = st.mode ∧ (onTxDone now st).lastAckOkMs = st.lastAckOkMs := by
  unfold onTxDone
  dsimp only
  repeat' first
    | exact ⟨rfl, rfl⟩
    | split

/-- `onTxTimeout` never touches `mode` or `lastAckOkMs`. -/
theorem onTxTimeout_pres (now : Nat) (st : LoRaComm) :
    (onTxTimeout now st).mode = st.mode ∧ (onTxTimeout now st).lastAckOkMs = st.lastAckOkMs := by
  unfold onTxTimeout
  dsimp only
  repeat' first
    | exact ⟨rfl, rfl⟩
    | split

/-- `onRxDone` never changes `mode`, and updates `lastAckOkMs` only on a
slave (the ACK branch guards the write with `mode == Slave`), so a master
keeps its `lastAckOkMs` forever. -/
theorem onRxDone_pres (st : LoRaComm) (payload : List Nat) (size : Nat) (rssi : Int) (now : Nat) :
    (onRxDone st payload size rssi now).1.mode = st.mode
      ∧ (st.mode = .master →
          (onRxDone st payload size rssi now).1.lastAckOkMs = st.lastAckOkMs) := by
  unfold onRxDone
  dsimp only
  repeat' first
    | exact ⟨rfl, fun _ => rfl⟩
    | split
  all_goals refine ⟨rfl, fun hm => ?_⟩
  all_goals simp_all

/-- `forceReconnect` never touches `mode` or `lastAckOkMs`. -/
theorem forceReconnect_pres (now : Nat) (st : LoRaComm) :
    (forceReconnect now st).mode = st.mode
      ∧ (forceReconnect now st).lastAckOkMs = st.lastAckOkMs := by
  unfold forceReconnect
  split <;> exact ⟨rfl, rfl⟩

/-- Every external stimulus preserves Master mode and, in Master mode,
`lastAckOkMs`. -/
theorem applyAction_pres (st : LoRaComm) (a : LoRaAction) (h : st.mode = .master) :
    (applyAction st a).mode = .master
      ∧ (applyAction st a).lastAckOkMs = st.lastAckOkMs := by
  cases a with
  | tick now => exact ⟨((tick_pres now st).1).trans h, (tick_pres now st).2⟩
  | rx payload size rssi now =>
    exact ⟨((onRxDone_pres st payload size rssi now).1).trans h,
      (onRxDone_pres st payload size rssi now).2 h⟩
  | txDone now => exact ⟨((onTxDone_pres now st).1).trans h, (onTxDone_pres now st).2⟩
  | txTimeout now => exact ⟨((onTxTimeout_pres now st).1).trans h, (onTxTimeout_pres now st).2⟩
  | send d p l r => exact ⟨((sendData_mode st d p l r).1).trans h, (sendData_mode st d p l r).2⟩
  | reconnect now =>
    exact ⟨((forceReconnect_pres now st).1).trans h, (forceReconnect_pres now st).2⟩
  | setPeerTimeout ms => exact ⟨h, rfl⟩
  | setMasterNodeId id => exact ⟨h, rfl⟩

/-- A master that has never seen an ACK keeps `lastAckOkMs = 0` under every
action trace. -/
theorem runActions_pres (acts : List LoRaAction) (st : LoRaComm)
    (h : st.mode = .master) (h0 : st.lastAckOkMs = 0) :
    (runActions st acts).mode = .master ∧ (runActions st acts).lastAckOkMs = 0 := by
  induction acts generalizing st with
  | nil => exact ⟨h, h0⟩
  | cons a rest ih =>
    have hp := applyAction_pres st a h
    exact ih (applyAction st a) hp.1 (hp.2.trans h0)

/-- C10: `last_rssi_dbm()` returns the sentinel `INT16_MIN = -32768`
whenever `lastAckOkMs = 0`, regardless of the real RSSI values recorded in
`lastRssiDbm` by received frames; and since `lastAckOkMs` is written only by
the Slave-mode ACK branch of `onRxDone`, a Master-mode node returns the
sentinel after every possible action trace. -/
theorem c10_master_rssi_sentinel (st : LoRaComm) (acts : List LoRaAction)
    (hm : st.mode = .master) (h0 : st.lastAckOkMs = 0) :
    getLastRssiDbm (runActions st acts) = -32768
      ∧ ∀ s : LoRaComm, s.lastAckOkMs = 0 → getLastRssiDbm s = -32768 := by
  refine ⟨?_, fun s hs => ?_⟩
  · unfold getLastRssiDbm
    rw [(runActions_pres acts st hm h0).2]
    rfl
  · unfold getLastRssiDbm
    rw [hs]
    rfl

/-- C10 (witness): a fresh master that ticks, receives a valid DATA frame
with RSSI -42 dBm, completes a TX and enqueues a send still reports
`INT16_MIN`. -/
theorem c10_witness :
    getLastRssiDbm (runActions (LoRaComm.init .master 1) actsC10) = -32768 :=
  (c10_master_rssi_sentinel (LoRaComm.init .master 1) actsC10 rfl rfl).1
